import Mathlib

/-!
Shallow embedding of the device-checker repository (src/main.py and
src/main_cert_sites.py): identity derivation, snapshot load and save, the
diff-and-notify run flow of both scripts, and a small step semantics for the
two file-writing routines. Theorems about the claims follow the definitions.
-/

/-- A fetched table: column names plus rows of cell values aligned with the
columns. A failed fetch yields the empty table (no columns and no rows),
exactly as `get_github_devices_df` and `get_google_devices_df` in main.py
return `pd.DataFrame()` on any error. -/
structure DataFrame where
  columns : List String
  rows : List (List String)
deriving DecidableEq

/-- Pandas `df.empty` for this model: no rows. -/
def DataFrame.isEmpty (df : DataFrame) : Bool := df.rows.isEmpty

/-- The empty table, as returned by a failed fetch in main.py. -/
def emptyDf : DataFrame := ⟨[], []⟩

/-- Characterwise lowercasing (Python `str.lower()` on the ASCII data these
scripts handle). -/
def lowerStr (s : String) : String := ⟨s.data.map Char.toLower⟩

/-- Whether the second character list starts with the first. -/
def startsWithChars : List Char → List Char → Bool
  | [], _ => true
  | _ :: _, [] => false
  | p :: ps, c :: cs => p == c && startsWithChars ps cs

/-- Naive substring containment on character lists (Python `pat in s`). -/
def containsChars (pat : List Char) : List Char → Bool
  | [] => pat.isEmpty
  | c :: cs => startsWithChars pat (c :: cs) || containsChars pat cs

/-- Joins strings with a separator (Python `sep.join(parts)`). -/
def joinSep (sep : String) : List String → String
  | [] => ""
  | [x] => x
  | x :: y :: xs => x ++ sep ++ joinSep sep (y :: xs)

/-- The canonical key-column names recognized by `get_key_columns` in
main.py (compared against `col.lower()`). -/
def keyColumnNames : List String :=
  ["model", "device", "codename", "manufacturer", "marketing name", "android version"]

/-- Whether a column name contains the substring "model" case-insensitively
(`'model' in col.lower()` in main.py). -/
def containsModel (c : String) : Bool := containsChars "model".data (lowerStr c).data

/-- Embeds `get_key_columns` of src/main.py: all columns whose lowercased
name is canonical; else the first column containing "model"; else the
literal column "Model"; else the first column; else none. -/
def get_key_columns (columns : List String) : List String :=
  let key_cols := columns.filter (fun c => keyColumnNames.contains (lowerStr c))
  if !key_cols.isEmpty then key_cols
  else
    let model_cols := columns.filter containsModel
    if !model_cols.isEmpty then model_cols.take 1
    else if columns.contains "Model" then ["Model"]
    else if !columns.isEmpty then columns.take 1
    else []

/-- The value of a row at a named column; a missing column gives "". -/
def rowVal (columns row : List String) (c : String) : String :=
  (((columns.zip row).find? (fun p => p.1 == c)).map Prod.snd).getD ""

/-- The unique key main.py computes for one row: the raw stringified values
of the key columns joined with "|"
(`df[key_cols].astype(str).agg("|".join, axis=1)`). -/
def unique_key (columns row : List String) : String :=
  joinSep "|" ((get_key_columns columns).map (rowVal columns row))

/-- The list of unique keys main.py computes for one table: empty when the
table is empty or when no key columns were found. -/
def dfKeys (df : DataFrame) : List String :=
  if df.isEmpty then []
  else if (get_key_columns df.columns).isEmpty then []
  else df.rows.map (unique_key df.columns)

/-- Pythons `set(current_keys) - set(previous_keys)` from main.py, as the
list of distinct current keys that are not previous keys. Python iterates
this set in an unspecified order; the model fixes one order, and no claim
proved about main.py below depends on which order was fixed. -/
def newKeys (current previous : List String) : List String :=
  (current.filter (fun k => decide (k ∉ previous))).dedup

/-- The progress file of main.py: one identity list per source. -/
structure MainProgress where
  github : List String
  google : List String
deriving DecidableEq

/-- The outward Telegram messages main.py can send, abstracted to their
kind and the data that distinguishes them. -/
inductive Msg where
  | connTest
  | startCheck
  | bothFetchFailed
  | firstRunBaseline (githubTotal googleTotal : Nat)
  | newDevice (source key : String)
  | summary (newGithub newGoogle githubTotal googleTotal : Nat)
  | lockBusy
deriving DecidableEq

/-- The observable outcome of one main.py invocation: the ordered message
sequence, whether the progress file content was read, and what was written
to it (none = not written). -/
structure MainOutput where
  messages : List Msg
  progressRead : Bool
  savedProgress : Option MainProgress
deriving DecidableEq

/-- Embeds `load_progress` of src/main.py. The argument describes the
progress file: none = absent, some none = present but unparseable,
some (some p) = parseable as p. Absent and unparseable both yield None in
the script, the first-run signal. -/
def load_progress_main : Option (Option MainProgress) → Option MainProgress
  | none => none
  | some none => none
  | some (some p) => some p

/-- Embeds the body of `main` in src/main.py after the lock is acquired:
start message, progress load result, both-empty early return, key
derivation, set difference, baseline and per-item and summary messages,
and the final `save_progress`. -/
def mainRun (progress : Option MainProgress) (githubDf googleDf : DataFrame) :
    MainOutput :=
  let first_run := progress.isNone
  if githubDf.isEmpty && googleDf.isEmpty then
    { messages := [Msg.connTest, Msg.startCheck, Msg.bothFetchFailed],
      progressRead := true, savedProgress := none }
  else
    let github_total := githubDf.rows.length
    let google_total := googleDf.rows.length
    let github_keys := dfKeys githubDf
    let google_keys := dfKeys googleDf
    let prev_github := match progress with | none => [] | some p => p.github
    let prev_google := match progress with | none => [] | some p => p.google
    let new_github := newKeys github_keys prev_github
    let new_google := newKeys google_keys prev_google
    let msgs :=
      [Msg.connTest, Msg.startCheck]
      ++ (if first_run then [Msg.firstRunBaseline github_total google_total] else [])
      ++ new_github.map (fun k => Msg.newDevice "GitHub" k)
      ++ new_google.map (fun k => Msg.newDevice "Google" k)
      ++ (if first_run then []
          else [Msg.summary new_github.length new_google.length github_total google_total])
    { messages := msgs, progressRead := true,
      savedProgress := some ⟨github_keys, google_keys⟩ }

/-- Embeds `main` of src/main.py around the file lock: the connection test
happens before `lock.acquire(timeout=30)`; on lock timeout the script sends
one lock-busy advisory and returns without reading or writing the progress
file; otherwise the locked body runs. -/
def mainWithLock (lockOk : Bool) (file : Option (Option MainProgress))
    (githubDf googleDf : DataFrame) : MainOutput :=
  if lockOk then mainRun (load_progress_main file) githubDf googleDf
  else { messages := [Msg.connTest, Msg.lockBusy],
         progressRead := false, savedProgress := none }

/-- The progress file of main_cert_sites.py: one fingerprint list per site
plus the initialized flag (the last_check timestamp carries no information
the claims mention). -/
structure CertProgress where
  nbtc : List String
  qi_wpc : List String
  audio_jp : List String
  initialized : Bool
deriving DecidableEq

/-- The default progress value of `load_progress` in main_cert_sites.py. -/
def certDefault : CertProgress := ⟨[], [], [], false⟩

/-- Embeds `load_progress` of src/main_cert_sites.py. First component: was
the progress file content actually read. A lock timeout returns the default
without reading; a missing file returns the default; an unparseable file is
read, raises, and the handler returns the default; otherwise the stored
value is returned (the ensure-keys loop is covered by the typed record). -/
def cert_load (lockOk : Bool) (file : Option (Option CertProgress)) :
    Bool × CertProgress :=
  if lockOk then
    match file with
    | none => (false, certDefault)
    | some none => (true, certDefault)
    | some (some p) => (true, p)
  else (false, certDefault)

/-- The new_infos list of `compare_and_notify`: fetched fingerprints absent
from the stored set, in fetched order (duplicates in the fetched list are
kept, since the stored set is not extended during the loop). -/
def certNew (existing items : List String) : List String :=
  items.filter (fun fp => decide (fp ∉ existing))

/-- The fingerprints `compare_and_notify` sends per-item notifications for,
in emitted order: the new_infos list when `(not first_run or force_notify)
and new_infos` holds, else nothing. -/
def certNotified (existing items : List String) (first_run force_notify : Bool) :
    List String :=
  if (!first_run || force_notify) && !(certNew existing items).isEmpty then
    certNew existing items
  else []

/-- The outward Telegram messages of main_cert_sites.py, abstracted to
their kind and distinguishing data. -/
inductive CMsg where
  | newDevice (site fp : String)
  | baselineSummary (nbtcTotal qiTotal audioTotal nbtcNew qiNew audioNew : Nat)
  | summary (nbtcTotal qiTotal audioTotal nbtcNew qiNew audioNew : Nat)
deriving DecidableEq

/-- The observable outcome of one `run_once` invocation. -/
structure CertOutput where
  fileRead : Bool
  messages : List CMsg
  savedProgress : Option CertProgress
deriving DecidableEq

/-- Embeds `run_once` of src/main_cert_sites.py: load under the file lock,
compute first_run from the loaded flag, optionally clear the lists in
simulate mode, run `compare_and_notify` per site (each site entry is then
replaced by the currently fetched fingerprint list), send the per-item
messages followed by one baseline-plus-summary or summary message, mark
initialized and save under the file lock (a save-lock timeout skips the
write). Fetch failures surface as empty item lists, exactly as each fetch
helper returns its accumulated `result` after catching any exception. -/
def run_once (loadLockOk saveLockOk : Bool) (file : Option (Option CertProgress))
    (nbtcItems qiItems audioItems : List String) (simulate force_notify : Bool) :
    CertOutput :=
  let loaded := cert_load loadLockOk file
  let progress0 := loaded.2
  let first_run := !progress0.initialized
  let progress1 :=
    if simulate then { nbtc := [], qi_wpc := [], audio_jp := [], initialized := true }
    else progress0
  let nbtcSent := certNotified progress1.nbtc nbtcItems first_run force_notify
  let qiSent := certNotified progress1.qi_wpc qiItems first_run force_notify
  let audioSent := certNotified progress1.audio_jp audioItems first_run force_notify
  let nbtcNewCount := (certNew progress1.nbtc nbtcItems).length
  let qiNewCount := (certNew progress1.qi_wpc qiItems).length
  let audioNewCount := (certNew progress1.audio_jp audioItems).length
  let finalMsg :=
    if first_run && !force_notify then
      CMsg.baselineSummary nbtcItems.length qiItems.length audioItems.length
        nbtcNewCount qiNewCount audioNewCount
    else
      CMsg.summary nbtcItems.length qiItems.length audioItems.length
        nbtcNewCount qiNewCount audioNewCount
  { fileRead := loaded.1,
    messages := nbtcSent.map (fun fp => CMsg.newDevice "NBTC" fp)
      ++ qiSent.map (fun fp => CMsg.newDevice "QiWPC" fp)
      ++ audioSent.map (fun fp => CMsg.newDevice "AudioJP" fp)
      ++ [finalMsg],
    savedProgress :=
      if saveLockOk then some ⟨nbtcItems, qiItems, audioItems, true⟩ else none }

/-- Whitespace as Python str.split() sees it, on the ASCII data these
scripts handle. -/
def isWs (c : Char) : Bool := c == ' ' || c == '\t' || c == '\n' || c == '\r'

/-- Splits a character list into its maximal nonempty runs of
non-whitespace characters (Python `str.split()` with no arguments); the
first argument accumulates the current run in reverse. -/
def splitWsAux (acc : List Char) : List Char → List String
  | [] => if acc.isEmpty then [] else [⟨acc.reverse⟩]
  | c :: cs =>
    if isWs c then
      if acc.isEmpty then splitWsAux [] cs else ⟨acc.reverse⟩ :: splitWsAux [] cs
    else splitWsAux (c :: acc) cs

/-- Embeds `normalize_text` of src/main_cert_sites.py:
`" ".join(str(s).strip().lower().split())`, with "" for falsy input. -/
def normalize_text (s : String) : String :=
  if s = "" then "" else joinSep " " (splitWsAux [] (lowerStr s).data)

/-- SHA-256 hex digest, modeled as an uninterpreted deterministic stand-in:
the claims below concern only which text is hashed and that equal text
hashes equally, never concrete digest values. -/
def sha256hex (s : String) : String := "sha256:" ++ s

/-- Embeds `fingerprint_from_fields` of src/main_cert_sites.py: normalized
field values joined with "||" and hashed. -/
def fingerprint_from_fields (fields : List String) : String :=
  sha256hex (joinSep "||" (fields.map normalize_text))

/-- The key order `json.dumps(..., sort_keys=True)` serializes fields in:
comparison by field name. -/
def keyLe (a b : String × String) : Prop := a.1 ≤ b.1

instance : DecidableRel keyLe := fun a b => inferInstanceAs (Decidable (a.1 ≤ b.1))

instance : IsTotal (String × String) keyLe := ⟨fun a b => le_total a.1 b.1⟩

instance : IsTrans (String × String) keyLe := ⟨fun _ _ _ h1 h2 => le_trans h1 h2⟩

/-- The strict part of the key order. -/
def keyLt (a b : String × String) : Prop := a.1 < b.1

instance : IsAntisymm (String × String) keyLt := ⟨fun _ _ h1 h2 => absurd h2 (lt_asymm h1)⟩

/-- One serialized field of the JSON object. -/
def serializeField (kv : String × String) : String :=
  "\"" ++ kv.1 ++ "\":\"" ++ kv.2 ++ "\""

/-- Embeds `json.dumps(obj, sort_keys=True, ensure_ascii=False)` for a flat
string-valued object given as a field list in insertion order: the fields
are serialized in sorted key order, never in insertion order. -/
def json_dumps_sorted (l : List (String × String)) : String :=
  "\x7b" ++ joinSep "," ((List.insertionSort keyLe l).map serializeField) ++ "\x7d"

/-- Embeds `fingerprint_from_json` of src/main_cert_sites.py on the
JSON-object case: hash of the deterministic sorted serialization. -/
def fingerprint_from_json (l : List (String × String)) : String :=
  sha256hex (json_dumps_sorted l)

/-- One file-system step used by the two snapshot writers. -/
inductive WStep where
  | writeTmp (s : String)
  | truncateFinal
  | writeFinal (s : String)
  | replaceTmpFinal
deriving DecidableEq

/-- File-system state: the content at the final snapshot path, and the
content of the temporary file when one exists. -/
structure FS where
  final : String
  tmp : Option String
deriving DecidableEq

/-- Effect of one write step on the file-system state. `replaceTmpFinal` is
the atomic `os.replace`: in one step the final path holds the temporary
file content. -/
def stepFS (fs : FS) : WStep → FS
  | WStep.writeTmp s => { fs with tmp := some s }
  | WStep.truncateFinal => { fs with final := "" }
  | WStep.writeFinal s => { fs with final := s }
  | WStep.replaceTmpFinal =>
    match fs.tmp with
    | some s => { final := s, tmp := none }
    | none => fs

/-- Runs a list of write steps. -/
def runSteps (fs : FS) (steps : List WStep) : FS := steps.foldl stepFS fs

/-- Embeds `safe_write_json` of src/main_cert_sites.py: the content goes to
a fresh temporary file, then one atomic `os.replace` into the final path. -/
def safe_write_json_steps (content : String) : List WStep :=
  [WStep.writeTmp content, WStep.replaceTmpFinal]

/-- Embeds `save_progress` of src/main.py: `open(PROGRESS_FILE, "w")`
truncates the final path in place, then `json.dump` writes the new content
to it directly. -/
def save_progress_steps (content : String) : List WStep :=
  [WStep.truncateFinal, WStep.writeFinal content]

/-- Content observed at the final path if the process crashes after the
first k steps of a write routine, starting from a persisted snapshot
`old` and no temporary file. -/
def crashFinal (steps : List WStep) (old : String) (k : Nat) : String :=
  (runSteps ⟨old, none⟩ (steps.take k)).final

/-- Membership in the main.py set difference. -/
lemma mem_newKeys {current previous : List String} {k : String} :
    k ∈ newKeys current previous ↔ (k ∈ current ∧ k ∉ previous) := by
  simp [newKeys, List.mem_dedup, List.mem_filter]

/-- Membership in the cert-sites new_infos list. -/
lemma mem_certNew {existing items : List String} {k : String} :
    k ∈ certNew existing items ↔ (k ∈ items ∧ k ∉ existing) := by
  simp [certNew, List.mem_filter]

/-- A list sorted by the weak key order with no duplicate keys is sorted by
the strict key order. -/
lemma sorted_keyLt_of_sorted_keyLe {l : List (String × String)}
    (hs : List.Sorted keyLe l) (hn : (l.map Prod.fst).Nodup) :
    List.Sorted keyLt l := by
  have hp : l.Pairwise (fun a b => a.1 ≠ b.1) := List.pairwise_map.1 hn
  exact (hs.and hp).imp (fun h => lt_of_le_of_ne h.1 h.2)

/-- Sorting by key is invariant under permutation of a field list with
distinct keys: the sort-keys serialization order is canonical. -/
lemma insertionSort_key_eq {l₁ l₂ : List (String × String)}
    (hp : l₁.Perm l₂) (hn : (l₁.map Prod.fst).Nodup) :
    List.insertionSort keyLe l₁ = List.insertionSort keyLe l₂ := by
  have h1 := List.perm_insertionSort keyLe l₁
  have h2 := List.perm_insertionSort keyLe l₂
  have hperm : (List.insertionSort keyLe l₁).Perm (List.insertionSort keyLe l₂) :=
    h1.trans (hp.trans h2.symm)
  have hn2 : (l₂.map Prod.fst).Nodup := ((hp.map Prod.fst).nodup_iff).1 hn
  exact List.eq_of_perm_of_sorted hperm
    (sorted_keyLt_of_sorted_keyLe (List.sorted_insertionSort keyLe l₁)
      (((h1.map Prod.fst).nodup_iff).2 hn))
    (sorted_keyLt_of_sorted_keyLe (List.sorted_insertionSort keyLe l₂)
      (((h2.map Prod.fst).nodup_iff).2 hn2))

/-- Claim C1: on the first run of main.py (no progress file) with one
fetched GitHub device, the script sends the baseline message AND a per-item
new-device message for the device: the per-item loop is not guarded by
first_run, so first-run suppression fails, contradicting the scripts own
baseline text ("you will receive notifications ... from now on") and its
"all devices will be considered as already tracked" log line. -/
theorem C1_main_first_run_sends_per_item :
    (mainRun none ⟨["Model"], [["PixelX"]]⟩ emptyDf).messages
      = [Msg.connTest, Msg.startCheck, Msg.firstRunBaseline 1 0,
         Msg.newDevice "GitHub" "PixelX"]
    ∧ Msg.newDevice "GitHub" "PixelX"
        ∈ (mainRun none ⟨["Model"], [["PixelX"]]⟩ emptyDf).messages := by
  decide

/-- Claim C2, counterexample: main.py with a previous snapshot of
github = ["x"], google = ["y"], a failed GitHub fetch (empty table) and a
successful Google fetch saves github = [], overwriting the last-known
GitHub identity set with the empty set, and sends no fetch-failure
advisory. -/
theorem C2_failed_fetch_overwritten :
    (mainRun (some ⟨["x"], ["y"]⟩) emptyDf ⟨["Model"], [["g"]]⟩).savedProgress
      = some ⟨[], ["g"]⟩
    ∧ ([] : List String) ≠ ["x"]
    ∧ Msg.bothFetchFailed
        ∉ (mainRun (some ⟨["x"], ["y"]⟩) emptyDf ⟨["Model"], [["g"]]⟩).messages := by
  decide

/-- Claim C2, amended: a failed fetch contributes an empty identity list
and the run then saves that empty list over the previous snapshot entry.
In main.py this happens whenever the other source is non-empty; in
main_cert_sites.py every saved run replaces each site entry with the
currently fetched fingerprint list regardless of the previous entry. Only
the main.py both-sources-empty case returns before saving, leaving the
whole file unchanged. -/
theorem C2_amended_failed_fetch_saves_empty :
    (∀ (prev : MainProgress) (googleDf : DataFrame), googleDf.isEmpty = false →
      (mainRun (some prev) emptyDf googleDf).savedProgress
        = some ⟨[], dfKeys googleDf⟩)
    ∧ (∀ llk file n q a sim fn,
        (run_once llk true file n q a sim fn).savedProgress = some ⟨n, q, a, true⟩)
    ∧ (∀ progress, (mainRun progress emptyDf emptyDf).savedProgress = none) := by
  refine ⟨?_, ?_, ?_⟩
  · intro prev goDf h
    have hne : goDf.rows ≠ [] := by
      intro hnil
      simp [DataFrame.isEmpty, hnil] at h
    simp [mainRun, emptyDf, DataFrame.isEmpty, dfKeys, hne]
  · intro llk file n q a sim fn
    simp [run_once]
  · intro progress
    simp [mainRun, emptyDf, DataFrame.isEmpty]

/-- Claim C2, witness for the amended theorem at a concrete failed fetch. -/
theorem C2_amended_witness :
    (mainRun (some ⟨["x"], ["y"]⟩) emptyDf ⟨["Model"], [["g"]]⟩).savedProgress
      = some ⟨[], dfKeys ⟨["Model"], [["g"]]⟩⟩ :=
  C2_amended_failed_fetch_saves_empty.1 ⟨["x"], ["y"]⟩ ⟨["Model"], [["g"]]⟩ (by decide)

/-- Claim C3, counterexample: `save_progress` of src/main.py opens the
progress file with mode "w" and writes in place; a crash after the
truncating open and before the dump leaves the final path empty, so the
previously persisted snapshot is destroyed, not intact. -/
theorem C3_main_save_not_atomic :
    crashFinal (save_progress_steps "newsnapshot") "oldsnapshot" 1 = ""
    ∧ ("" : String) ≠ "oldsnapshot"
    ∧ ("" : String) ≠ "newsnapshot" := by
  decide

/-- Claim C3, amended: only `safe_write_json` of src/main_cert_sites.py is
atomic: at every crash point the final path holds either the old or the new
content in full. `save_progress` of src/main.py writes in place, and a
crash right after the truncating open leaves the final path empty. -/
theorem C3_amended_write_semantics :
    (∀ (old content : String) (k : Nat),
      crashFinal (safe_write_json_steps content) old k = old
      ∨ crashFinal (safe_write_json_steps content) old k = content)
    ∧ (∀ (old content : String), crashFinal (save_progress_steps content) old 1 = "") := by
  constructor
  · intro old content k
    match k with
    | 0 => exact Or.inl rfl
    | 1 => exact Or.inl rfl
    | (n + 2) =>
      right
      simp [crashFinal, safe_write_json_steps, runSteps, stepFS, List.take]
  · intro old content
    rfl

/-- Claim C4, counterexample: with no first run, empty previous set and
fetched fingerprints ["b", "a"], main_cert_sites.py notifies in fetched
order ["b", "a"], which is not sorted by identity string, so the emitted
order is not the sorted order the claim states. -/
theorem C4_notifications_not_sorted :
    certNotified [] ["b", "a"] false false = ["b", "a"]
    ∧ ¬ List.Sorted (fun x y : String => x ≤ y)
        (certNotified [] ["b", "a"] false false) := by
  have hab : ("a" : String) < "b" := String.lt_iff_toList_lt.2 (by decide)
  refine ⟨by decide, ?_⟩
  intro h
  rw [show certNotified [] ["b", "a"] false false = ["b", "a"] from by decide] at h
  have hle : ("b" : String) ≤ "a" := (List.sorted_cons.1 h).1 "a" (by simp)
  exact absurd hle (not_le.2 hab)

/-- Claim C4, amended: given the same fetched fingerprint sequence and the
same previous snapshot, the per-site notification sequence of
main_cert_sites.py is the fetch-ordered sublist of new fingerprints — a
fixed deterministic function of the inputs, preserving fetch order rather
than sorting by identity (and main.py iterates a Python set, whose order
is unspecified). -/
theorem C4_amended_fetch_order_deterministic :
    ∀ (existing items : List String) (force_notify : Bool),
      certNotified existing items false force_notify = certNew existing items
      ∧ (certNew existing items).Sublist items := by
  intro existing items fn
  constructor
  · by_cases h : (certNew existing items).isEmpty
    · have hnil : certNew existing items = [] := List.isEmpty_iff.1 h
      simp [certNotified, hnil]
    · simp [certNotified, h]
  · exact List.filter_sublist items

/-- Claim C5: for all current and previous identity lists, in both scripts
the computed new set is exactly the set difference current minus previous:
its members are the current identities absent from the previous ones, it is
empty when current is a subset of previous, and it is all of current when
previous is empty. -/
theorem C5_diff_is_set_difference :
    ∀ (current previous : List String),
      (∀ k, (k ∈ newKeys current previous ↔ (k ∈ current ∧ k ∉ previous))
            ∧ (k ∈ certNew previous current ↔ (k ∈ current ∧ k ∉ previous)))
      ∧ ((∀ k ∈ current, k ∈ previous) →
          newKeys current previous = [] ∧ certNew previous current = [])
      ∧ (certNew [] current = current
         ∧ (newKeys current []).toFinset = current.toFinset) := by
  intro current previous
  refine ⟨fun k => ⟨mem_newKeys, mem_certNew⟩, ?_, ?_, ?_⟩
  · intro hsub
    constructor
    · simpa [newKeys] using hsub
    · simpa [certNew] using hsub
  · rw [certNew, List.filter_eq_self]
    intro a _
    simp
  · ext a
    simp [List.mem_toFinset, mem_newKeys]

/-- Claim C5, witness: the subset case at a concrete input. -/
theorem C5_diff_witness :
    newKeys ["a"] ["a", "b"] = [] ∧ certNew ["a", "b"] ["a"] = [] :=
  (C5_diff_is_set_difference ["a"] ["a", "b"]).2.1 (by decide)

/-- Claim C6: a progress file that exists but cannot be parsed degrades to
first-run semantics in both scripts and neither run crashes: main.py
returns None (its first-run signal) and main_cert_sites.py returns the
default progress whose initialized flag is false (its first-run signal). -/
theorem C6_unparseable_degrades_to_first_run :
    load_progress_main (some none) = none
    ∧ load_progress_main none = none
    ∧ cert_load true (some none) = (true, certDefault)
    ∧ certDefault.initialized = false := by
  decide

/-- Claim C7, counterexample: in main_cert_sites.py the lock guards only
load and save, not the run. With the load-lock unavailable, a stored
snapshot nbtc = ["x"] and a fetched fingerprint "y", the run proceeds and
(when the save-time lock acquisition succeeds) writes the snapshot,
replacing the stored entry — the invocation that could not acquire the lock
both continued and mutated state. -/
theorem C7_cert_lock_timeout_still_writes :
    (run_once false true (some (some ⟨["x"], [], [], true⟩))
        ["y"] [] [] false false).savedProgress = some ⟨["y"], [], [], true⟩
    ∧ (run_once false true (some (some ⟨["x"], [], [], true⟩))
        ["y"] [] [] false false).savedProgress ≠ none := by
  decide

/-- Claim C7, amended: in main.py a run-lock timeout aborts with exactly
one lock-busy advisory (after the connection test) and the progress file is
neither read nor written. In main_cert_sites.py the load-lock timeout does
not abort: the run continues with the default progress, never having read
the file, and writes the snapshot exactly when the separate save-time lock
acquisition succeeds. -/
theorem C7_amended_lock_behavior :
    (∀ file githubDf googleDf,
      mainWithLock false file githubDf googleDf
        = { messages := [Msg.connTest, Msg.lockBusy],
            progressRead := false, savedProgress := none })
    ∧ (∀ slk file n q a sim fn,
        (run_once false slk file n q a sim fn).fileRead = false
        ∧ (run_once false slk file n q a sim fn).savedProgress
            = (if slk then some ⟨n, q, a, true⟩ else none)) := by
  constructor
  · intro file githubDf googleDf
    rfl
  · intro slk file n q a sim fn
    exact ⟨rfl, rfl⟩

/-- Claim C8: the hash-fallback identity is independent of field insertion
order: two field lists with distinct field names that are permutations of
each other serialize identically under the sorted-keys serialization and
hence fingerprint identically. -/
theorem C8_fingerprint_insertion_order_independent :
    ∀ (l₁ l₂ : List (String × String)), l₁.Perm l₂ → (l₁.map Prod.fst).Nodup →
      fingerprint_from_json l₁ = fingerprint_from_json l₂ := by
  intro l1 l2 hp hn
  unfold fingerprint_from_json json_dumps_sorted
  rw [insertionSort_key_eq hp hn]

/-- Claim C8, witness: the same two fields in both insertion orders. -/
theorem C8_fingerprint_witness :
    fingerprint_from_json [("b", "2"), ("a", "1")]
      = fingerprint_from_json [("a", "1"), ("b", "2")] :=
  C8_fingerprint_insertion_order_independent _ _ (by decide) (by decide)

/-- Claim C9, counterexample: main.py joins the raw key-field values with
"|" and applies no normalization, so the record with Model " Pixel 9 " and
Manufacturer "Google" derives " Pixel 9 |Google", not the claimed
"Pixel 9|Google". -/
theorem C9_no_normalization_in_main :
    unique_key ["Model", "Manufacturer"] [" Pixel 9 ", "Google"] = " Pixel 9 |Google"
    ∧ " Pixel 9 |Google" ≠ "Pixel 9|Google" := by
  decide

/-- Claim C9, amended: for schema ["Model", "Manufacturer"] both columns
are key columns and main.py derives the identity by joining the raw values
with "|", yielding " Pixel 9 |Google" — untrimmed and uncollapsed. The
trim-and-collapse normalization lives only in main_cert_sites.py, whose
normalize_text also lowercases (" Pixel 9 " becomes "pixel 9") and which
feeds "||"-joined hashes, not readable "A|B" identities. -/
theorem C9_amended_raw_join_and_cert_normalization :
    dfKeys ⟨["Model", "Manufacturer"], [[" Pixel 9 ", "Google"]]⟩ = [" Pixel 9 |Google"]
    ∧ get_key_columns ["Model", "Manufacturer"] = ["Model", "Manufacturer"]
    ∧ normalize_text " Pixel 9 " = "pixel 9"
    ∧ fingerprint_from_fields [" Pixel 9 ", "Google"] = sha256hex "pixel 9||google" := by
  decide

/-- Claim C10: when both fetched tables are empty, main.py sends exactly
the connection-test, start and single failure-advisory messages and returns
before any diffing, per-item notification or save, so the progress file is
not written. -/
theorem C10_both_empty_aborts_before_save :
    ∀ (progress : Option MainProgress) (githubDf googleDf : DataFrame),
      githubDf.isEmpty = true → googleDf.isEmpty = true →
      mainRun progress githubDf googleDf
        = { messages := [Msg.connTest, Msg.startCheck, Msg.bothFetchFailed],
            progressRead := true, savedProgress := none } := by
  intro progress githubDf googleDf h1 h2
  simp [mainRun, h1, h2]

/-- Claim C10, witness: the double-failure run at the concrete empty
tables. -/
theorem C10_witness :
    mainRun none emptyDf emptyDf
      = { messages := [Msg.connTest, Msg.startCheck, Msg.bothFetchFailed],
          progressRead := true, savedProgress := none } :=
  C10_both_empty_aborts_before_save none emptyDf emptyDf (by decide) (by decide)
